import Mathlib

/-!
Verification of the craft-app backend's order/payment core.

The definitions below are a shallow embedding of the repository's route
handlers and Mongoose schemas:

* `md5`, `hexUpper` — the MD5 digest and uppercase-hex encoding used by the
  PayHere webhook verifier (`crypto.createHash('md5')...digest('hex').toUpperCase()`).
  Byte strings are modelled as `List Nat` with entries below 256.
* `Product`, `Order`, `Payment` — the persisted documents of
  `models/Product.js`, the order schema and the payment schema.  Mongoose
  enum validation on `save()` is modelled by `trySaveOrder` / `tryInsertOrder`
  / `tryInsertPayment`; fields absent from a schema (`customerInfo`,
  `paymentStatus`, `paymentId`) are dropped by Mongoose strict mode and are
  therefore not part of the persisted documents here.
* `createOrder`, `updateOrderStatus`, `cancelOrder` — the handlers of
  `routes/orders.js` (POST /, PATCH /:id/status, PATCH /:id/cancel).
* `payhereWebhook`, `paymentConfirm` — the handlers of the payments router
  (POST /payhere-webhook and POST /confirm) in the variant that uses the
  double-MD5 signature scheme, the one the specification describes.

Theorems named after claim ids settle the specification's claims.
-/

/-! ## MD5 over byte lists -/

/-- Truncate to a 32-bit word, mirroring JS/md5 32-bit modular arithmetic. -/
def u32 (x : Nat) : Nat := x % 4294967296

/-- 32-bit bitwise complement (arguments are kept below 2^32). -/
def not32 (x : Nat) : Nat := 4294967295 ^^^ x

/-- 32-bit left rotation. -/
def rotl32 (x s : Nat) : Nat := u32 ((x <<< s) ||| (x >>> (32 - s)))

/-- The 64 MD5 round constants, floor(abs(sin(i+1)) * 2^32). -/
def mdK : List Nat :=
  [3614090360, 3905402710, 606105819, 3250441966, 4118548399, 1200080426,
   2821735955, 4249261313, 1770035416, 2336552879, 4294925233, 2304563134,
   1804603682, 4254626195, 2792965006, 1236535329, 4129170786, 3225465664,
   643717713, 3921069994, 3593408605, 38016083, 3634488961, 3889429448,
   568446438, 3275163606, 4107603335, 1163531501, 2850285829, 4243563512,
   1735328473, 2368359562, 4294588738, 2272392833, 1839030562, 4259657740,
   2763975236, 1272893353, 4139469664, 3200236656, 681279174, 3936430074,
   3572445317, 76029189, 3654602809, 3873151461, 530742520, 3299628645,
   4096336452, 1126891415, 2878612391, 4237533241, 1700485571, 2399980690,
   4293915773, 2240044497, 1873313359, 4264355552, 2734768916, 1309151649,
   4149444226, 3174756917, 718787259, 3951481745]

/-- The 64 MD5 per-round shift amounts. -/
def mdS : List Nat :=
  [7, 12, 17, 22, 7, 12, 17, 22, 7, 12, 17, 22, 7, 12, 17, 22,
   5, 9, 14, 20, 5, 9, 14, 20, 5, 9, 14, 20, 5, 9, 14, 20,
   4, 11, 16, 23, 4, 11, 16, 23, 4, 11, 16, 23, 4, 11, 16, 23,
   6, 10, 15, 21, 6, 10, 15, 21, 6, 10, 15, 21, 6, 10, 15, 21]

/-- MD5 padding: append 0x80, zero bytes to 56 mod 64, then the original
bit length as 8 little-endian bytes. -/
def md5pad (m : List Nat) : List Nat :=
  let len := m.length
  let zeros := (64 + 56 - ((len + 1) % 64)) % 64
  m ++ [128] ++ List.replicate zeros 0 ++
    (List.range 8).map (fun i => ((8 * len) >>> (8 * i)) % 256)

/-- Decode a 64-byte chunk into 16 little-endian 32-bit words. -/
def md5words (chunk : List Nat) : List Nat :=
  (List.range 16).map (fun j =>
    chunk.getD (4 * j) 0 + 256 * chunk.getD (4 * j + 1) 0 +
    65536 * chunk.getD (4 * j + 2) 0 + 16777216 * chunk.getD (4 * j + 3) 0)

/-- One MD5 round on the state (A, B, C, D). -/
def md5round (M : List Nat) (st : Nat × Nat × Nat × Nat) (i : Nat) :
    Nat × Nat × Nat × Nat :=
  let A := st.1
  let B := st.2.1
  let C := st.2.2.1
  let D := st.2.2.2
  let FG : Nat × Nat :=
    if i < 16 then ((B &&& C) ||| (not32 B &&& D), i)
    else if i < 32 then ((D &&& B) ||| (not32 D &&& C), (5 * i + 1) % 16)
    else if i < 48 then (B ^^^ C ^^^ D, (3 * i + 5) % 16)
    else (C ^^^ (B ||| not32 D), (7 * i) % 16)
  let Fv := u32 (FG.1 + A + mdK.getD i 0 + M.getD FG.2 0)
  (D, u32 (B + rotl32 Fv (mdS.getD i 0)), B, C)

/-- Process one 64-byte chunk, adding the round result into the state. -/
def md5block (st : Nat × Nat × Nat × Nat) (chunk : List Nat) :
    Nat × Nat × Nat × Nat :=
  let M := md5words chunk
  let r := (List.range 64).foldl (md5round M) st
  (u32 (st.1 + r.1), u32 (st.2.1 + r.2.1), u32 (st.2.2.1 + r.2.2.1),
    u32 (st.2.2.2 + r.2.2.2))

/-- Split a byte list into 64-byte chunks; the fuel argument bounds the
number of chunks (any fuel at least the list's length is enough, since a
step consumes 64 bytes). -/
def chunk64Go : Nat → List Nat → List (List Nat)
  | 0, _ => []
  | _ + 1, [] => []
  | fuel + 1, l => l.take 64 :: chunk64Go fuel (l.drop 64)

/-- Split a (padded) message into 64-byte chunks. -/
def chunk64 (l : List Nat) : List (List Nat) := chunk64Go l.length l

/-- Serialize a 32-bit word as 4 little-endian bytes. -/
def wordLE (x : Nat) : List Nat :=
  [x % 256, (x >>> 8) % 256, (x >>> 16) % 256, (x >>> 24) % 256]

/-- MD5 digest of a byte string, as the usual 16-byte digest. -/
def md5 (m : List Nat) : List Nat :=
  let st := (chunk64 (md5pad m)).foldl md5block
    (1732584193, 4023233417, 2562383102, 271733878)
  wordLE st.1 ++ wordLE st.2.1 ++ wordLE st.2.2.1 ++ wordLE st.2.2.2

/-- One uppercase hex digit (as an ASCII code) for a value below 16. -/
def hexDigitUpper (d : Nat) : Nat := if d < 10 then 48 + d else 55 + d

/-- Uppercase hex encoding of a byte string (ASCII codes), mirroring
`digest('hex').toUpperCase()`. -/
def hexUpper (bs : List Nat) : List Nat :=
  bs.foldr (fun b acc => hexDigitUpper (b / 16) :: hexDigitUpper (b % 16) :: acc) []

/-! ## Data model (persisted documents and schema enums) -/

/-- A product document (models/Product.js): title, price, stock, isActive
(category/creator/images omitted: no claim involves them). -/
structure Product where
  title : String
  price : Int
  stock : Int
  isActive : Bool
deriving DecidableEq, Repr

/-- One line item of an order: a product reference and a quantity. -/
structure LineItem where
  product : Nat
  quantity : Int
deriving DecidableEq, Repr

/-- Optional tracking info attached when an order ships. -/
structure TrackingInfo where
  provider : String
  trackingNumber : String
deriving DecidableEq, Repr

/-- An order document as persisted by the order schema.  `customerInfo`,
`paymentStatus` and `paymentId` are set by handlers but are not schema
fields, so Mongoose strict mode drops them; they are not persisted. -/
structure Order where
  user : Option Nat
  products : List LineItem
  totalAmount : Int
  status : String
  shippingAddress : String
  trackingInfo : Option TrackingInfo
deriving DecidableEq, Repr

/-- A payment document as persisted by the payment schema. -/
structure Payment where
  order : Nat
  amount : Int
  method : String
  status : String
  transactionId : Option (List Nat)
deriving DecidableEq, Repr

/-- The order schema's status enum:
["pending", "confirmed", "shipped", "delivered", "cancelled", "returned"]. -/
def orderStatusEnum : List String :=
  ["pending", "confirmed", "shipped", "delivered", "cancelled", "returned"]

/-- The payment schema's method enum. -/
def paymentMethodEnum : List String := ["card", "cash_on_delivery", "bank_transfer"]

/-- The payment schema's status enum. -/
def paymentStatusEnum : List String := ["pending", "paid", "failed", "refunded"]

/-- Mongoose enum validation for an order, run by `save()`. -/
def orderValid (o : Order) : Bool := orderStatusEnum.contains o.status

/-- Mongoose enum validation for a payment, run by `save()`. -/
def paymentValid (p : Payment) : Bool :=
  paymentMethodEnum.contains p.method && paymentStatusEnum.contains p.status

/-- The persistent store: products, orders and payments keyed by ids. -/
structure DB where
  products : List (Nat × Product)
  orders : List (Nat × Order)
  payments : List (Nat × Payment)
deriving DecidableEq, Repr

/-- `Model.findById`: first entry with the given key. -/
def findById {α : Type} (l : List (Nat × α)) (i : Nat) : Option α :=
  (l.find? (fun e => e.1 == i)).map (fun e => e.2)

/-- `Model.findByIdAndUpdate`: rewrite the entry with the given key. -/
def updateById {α : Type} (l : List (Nat × α)) (i : Nat) (f : α → α) :
    List (Nat × α) :=
  l.map (fun e => if e.1 == i then (e.1, f e.2) else e)

/-- A key unused in the store, for newly inserted documents. -/
def freshId {α : Type} (l : List (Nat × α)) : Nat :=
  l.foldr (fun e m => Nat.max (e.1 + 1) m) 0

/-- `order.save()` on an existing document: enum-validate, then persist. -/
def trySaveOrder (db : DB) (oid : Nat) (o : Order) : Option DB :=
  if orderValid o then
    some { db with orders := updateById db.orders oid (fun _ => o) }
  else none

/-- `new Order(...); order.save()`: enum-validate, then insert. -/
def tryInsertOrder (db : DB) (o : Order) : Option (DB × Nat) :=
  if orderValid o then
    let oid := freshId db.orders
    some ({ db with orders := db.orders ++ [(oid, o)] }, oid)
  else none

/-- `new Payment(...); payment.save()`: enum-validate, then insert. -/
def tryInsertPayment (db : DB) (p : Payment) : Option (DB × Nat) :=
  if paymentValid p then
    let pid := freshId db.payments
    some ({ db with payments := db.payments ++ [(pid, p)] }, pid)
  else none

/-- HTTP outcomes of the handlers, by status code and the source's message. -/
inductive HttpResult where
  | badRequest (msg : String)
  | forbidden (msg : String)
  | notFound (msg : String)
  | serverError (msg : String)
  | ok (msg : String)
  | createdOrder (orderId : Nat) (paymentId : Nat)
deriving DecidableEq, Repr

/-- The authenticated principal attached by the auth middleware. -/
structure Principal where
  id : Nat
  role : String
deriving DecidableEq, Repr

/-! ## Order handlers (routes/orders.js) -/

/-- The body of POST / (create order). -/
structure CreateOrderReq where
  products : List LineItem
  shippingAddress : Option String
  customerName : Option String
  customerEmail : Option String
  customerPhone : Option String
  totalAmount : Int
deriving DecidableEq, Repr

/-- The validation loop of POST /: for each line item the product must
exist, be active, and have stock at least the requested quantity; the first
violation yields the handler's error message. -/
def validateItems (db : DB) : List LineItem → Option String
  | [] => none
  | item :: rest =>
    match findById db.products item.product with
    | none => some "Product not found"
    | some p =>
      if !p.isActive then some "Product is not available"
      else if p.stock < item.quantity then some "Insufficient stock"
      else validateItems db rest

/-- The stock-decrement loop of POST /: `$inc: stock: -quantity` per item. -/
def decStock (db : DB) (items : List LineItem) : DB :=
  items.foldl (fun d it =>
    let ps := updateById d.products it.product
      (fun p => { p with stock := p.stock - it.quantity })
    { d with products := ps }) db

/-- POST / (create order): validate inputs and stock, insert the order with
status "pending", decrement stock per line item, then insert a payment with
method "pending" and status "pending".  A `save()` rejected by schema
validation lands in the catch block (500 "Failed to create order"). -/
def createOrder (db : DB) (user : Option Nat) (req : CreateOrderReq) :
    DB × HttpResult :=
  if req.products.isEmpty then (db, .badRequest "Products are required")
  else
    match req.shippingAddress with
    | none => (db, .badRequest "Shipping address is required")
    | some addr =>
      match validateItems db req.products with
      | some msg => (db, .badRequest msg)
      | none =>
        if user.isNone &&
            (req.customerName.isNone || req.customerEmail.isNone ||
              req.customerPhone.isNone) then
          (db, .badRequest "Customer information is required for guest orders")
        else
          let order : Order :=
            { user := user, products := req.products,
              totalAmount := req.totalAmount, status := "pending",
              shippingAddress := addr, trackingInfo := none }
          match tryInsertOrder db order with
          | none => (db, .serverError "Failed to create order")
          | some (db1, oid) =>
            let db2 := decStock db1 req.products
            let pay : Payment :=
              { order := oid, amount := req.totalAmount, method := "pending",
                status := "pending", transactionId := none }
            match tryInsertPayment db2 pay with
            | none => (db2, .serverError "Failed to create order")
            | some (db3, pid) => (db3, .createdOrder oid pid)

/-- The status whitelist of PATCH /:id/status. -/
def validStatuses : List String :=
  ["pending", "confirmed", "shipped", "delivered", "cancelled", "returned"]

/-- The body of PATCH /:id/status. -/
structure UpdateStatusReq where
  status : String
  trackingInfo : Option TrackingInfo
deriving DecidableEq, Repr

/-- PATCH /:id/status (admin): reject a status outside `validStatuses`, set
the order's status, attach tracking info when shipping, save. -/
def updateOrderStatus (db : DB) (orderId : Nat) (req : UpdateStatusReq) :
    DB × HttpResult :=
  if !(validStatuses.contains req.status) then (db, .badRequest "Invalid status")
  else
    match findById db.orders orderId with
    | none => (db, .notFound "Order not found")
    | some o =>
      let o1 := { o with status := req.status }
      let o2 :=
        if req.status == "shipped" then
          match req.trackingInfo with
          | some t => { o1 with trackingInfo := some t }
          | none => o1
        else o1
      match trySaveOrder db orderId o2 with
      | some db1 => (db1, .ok "Order status updated successfully")
      | none => (db, .serverError "Failed to update order status")

/-- The stock-restore loop of PATCH /:id/cancel: `$inc: stock: quantity`. -/
def restoreStock (db : DB) (items : List LineItem) : DB :=
  items.foldl (fun d it =>
    let ps := updateById d.products it.product
      (fun p => { p with stock := p.stock + it.quantity })
    { d with products := ps }) db

/-- PATCH /:id/cancel: refuse when not owner/admin, when already cancelled,
or when delivered; otherwise set status to "cancelled", save, and only then
test `order.status` against confirmed/shipped to restore stock — the test
reads the already-overwritten status, exactly as the source does. -/
def cancelOrder (db : DB) (caller : Principal) (orderId : Nat) :
    DB × HttpResult :=
  match findById db.orders orderId with
  | none => (db, .notFound "Order not found")
  | some o =>
    if caller.role != "admin" &&
        (match o.user with | some u => u != caller.id | none => false) then
      (db, .forbidden "Not authorized to cancel this order")
    else if o.status == "cancelled" then
      (db, .badRequest "Order is already cancelled")
    else if o.status == "delivered" then
      (db, .badRequest "Cannot cancel delivered order")
    else
      let o1 := { o with status := "cancelled" }
      match trySaveOrder db orderId o1 with
      | none => (db, .serverError "Failed to cancel order")
      | some db1 =>
        if o1.status == "confirmed" || o1.status == "shipped" then
          (restoreStock db1 o1.products, .ok "Order cancelled successfully")
        else
          (db1, .ok "Order cancelled successfully")

/-! ## Payment handlers (payments router, double-MD5 variant) -/

/-- The body of POST /payhere-webhook.  String fields are byte strings;
`custom_1` is the internal order id the handler looks up, `custom_2` the
user id (destructured but unused by this handler). -/
structure WebhookReq where
  merchant_id : List Nat
  order_id : List Nat
  payment_id : List Nat
  payhere_amount : List Nat
  payhere_currency : List Nat
  status_code : List Nat
  md5sig : List Nat
  custom_1 : Nat
  custom_2 : Nat
deriving DecidableEq, Repr

/-- `Number(...)` on a decimal digit string, as the handler applies it to
`payhere_amount` (modelled for integer amount strings). -/
def jsNumber (s : List Nat) : Int :=
  s.foldl (fun acc d => acc * 10 + (Int.ofNat d - 48)) 0

/-- The uppercase hex MD5 digest of the merchant secret. -/
def secretDigest (secret : List Nat) : List Nat := hexUpper (md5 secret)

/-- The verifier's expected signature: uppercase hex MD5 of
merchant_id ++ order_id ++ amount ++ currency ++ status_code ++ secretDigest. -/
def expectedMd5sig (req : WebhookReq) (secret : List Nat) : List Nat :=
  hexUpper (md5 (req.merchant_id ++ req.order_id ++ req.payhere_amount ++
    req.payhere_currency ++ req.status_code ++ secretDigest secret))

/-- The byte string "2", PayHere's success status code. -/
def statusCode2 : List Nat := [50]

/-- POST /payhere-webhook: reject on signature mismatch; 404 on unknown
order; insert a payment ("paid" on code "2", else "failed", transactionId =
payment_id); then set the order's status to "confirmed" or
"payment_failed" and save (schema validation applies). -/
def payhereWebhook (db : DB) (secret : List Nat) (req : WebhookReq) :
    DB × HttpResult :=
  if req.md5sig != expectedMd5sig req secret then
    (db, .badRequest "Invalid signature")
  else
    match findById db.orders req.custom_1 with
    | none => (db, .notFound "Order not found")
    | some o =>
      let pay : Payment :=
        { order := req.custom_1, amount := jsNumber req.payhere_amount,
          method := "card",
          status := if req.status_code = statusCode2 then "paid" else "failed",
          transactionId := some req.payment_id }
      match tryInsertPayment db pay with
      | none => (db, .serverError "Webhook processing failed")
      | some (db1, _) =>
        let newStatus := if req.status_code = statusCode2 then "confirmed"
          else "payment_failed"
        match trySaveOrder db1 req.custom_1 { o with status := newStatus } with
        | some db2 => (db2, .ok "success")
        | none => (db1, .serverError "Webhook processing failed")

/-- POST /confirm: on status "completed", set the referenced order to
"confirmed" and save; otherwise report the payment as not completed. -/
def paymentConfirm (db : DB) (orderId : Nat) (status : String) :
    DB × HttpResult :=
  match findById db.orders orderId with
  | none => (db, .notFound "Order not found")
  | some o =>
    if status == "completed" then
      match trySaveOrder db orderId { o with status := "confirmed" } with
      | some db1 => (db1, .ok "Payment confirmed successfully")
      | none => (db, .serverError "Payment confirmation failed")
    else (db, .ok "Payment not completed")

/-! ## Concrete states and requests used in witnesses and counterexamples -/

/-- A catalog product with the given stock. -/
def sampleProduct (stock : Int) : Product :=
  { title := "craft", price := 10, stock := stock, isActive := true }

/-- An order of quantity 3 on product 1, owned by user 7, in the given status. -/
def sampleOrder (status : String) : Order :=
  { user := some 7, products := [⟨1, 3⟩], totalAmount := 30, status := status,
    shippingAddress := "Jaffna", trackingInfo := none }

/-- An order-creation request for the given items and claimed total. -/
def sampleReq (items : List LineItem) (amount : Int) : CreateOrderReq :=
  { products := items, shippingAddress := some "Jaffna",
    customerName := none, customerEmail := none, customerPhone := none,
    totalAmount := amount }

/-- Store with one product of stock 5 (the spec's creation scenario). -/
def dbStock5 : DB := { products := [(1, sampleProduct 5)], orders := [], payments := [] }

/-- Store with one product of stock 3 (the duplicate-line-item input). -/
def dbStock3 : DB := { products := [(1, sampleProduct 3)], orders := [], payments := [] }

/-- Store with a confirmed order on a product whose stock has been taken. -/
def dbConfirmed : DB :=
  { products := [(1, sampleProduct 0)], orders := [(5, sampleOrder "confirmed")],
    payments := [] }

/-- Store with a delivered order. -/
def dbDelivered : DB :=
  { products := [(1, sampleProduct 0)], orders := [(5, sampleOrder "delivered")],
    payments := [] }

/-- Store with a pending order awaiting its webhook. -/
def dbPending : DB :=
  { products := [(1, sampleProduct 0)], orders := [(5, sampleOrder "pending")],
    payments := [] }

/-- The merchant secret "S3CR3T" as bytes. -/
def sampleSecret : List Nat := [83, 51, 67, 82, 51, 84]

/-- A webhook notification for order 5 with the given status code and
signature: merchant "M1", gateway order "O77", payment "P1", amount "100",
currency "LKR". -/
def sampleWebhook (code sig : List Nat) : WebhookReq :=
  { merchant_id := [77, 49], order_id := [79, 55, 55], payment_id := [80, 49],
    payhere_amount := [49, 48, 48], payhere_currency := [76, 75, 82],
    status_code := code, md5sig := sig, custom_1 := 5, custom_2 := 7 }

/-- The valid signature for `sampleWebhook` with status code "2" under
`sampleSecret` (uppercase hex, as ASCII bytes). -/
def sigSuccess : List Nat :=
  [65, 57, 55, 48, 49, 52, 56, 53, 56, 49, 51, 53, 48, 67, 49, 48,
   51, 53, 55, 68, 48, 67, 70, 54, 52, 50, 48, 50, 67, 65, 70, 48]

/-- The valid signature for `sampleWebhook` with status code "1" under
`sampleSecret`. -/
def sigFailure : List Nat :=
  [50, 65, 65, 68, 68, 53, 54, 48, 56, 51, 50, 68, 49, 68, 65, 49,
   68, 65, 51, 68, 65, 56, 69, 66, 65, 54, 48, 53, 49, 70, 52, 50]

/-- `sigSuccess` with its first character lowercased ('A' to 'a'): a
single-character case mutation of a valid signature. -/
def sigMutated : List Nat := 97 :: sigSuccess.drop 1

/-- Tracking info supplied with a shipment. -/
def sampleTracking : TrackingInfo := { provider := "DHL", trackingNumber := "T1" }

/-- Whether one line item passes the creation checks: the product exists,
is active, and has stock at least the requested quantity. -/
def itemOkB (db : DB) (item : LineItem) : Bool :=
  match findById db.products item.product with
  | none => false
  | some p => p.isActive && decide (item.quantity ≤ p.stock)

/-! ## Helper lemmas -/

/-- Rewriting an entry and looking it up returns the rewritten document. -/
theorem findById_updateById {α : Type} (l : List (Nat × α)) (i : Nat) (f : α → α) :
    findById (updateById l i f) i = (findById l i).map f := by
  induction l with
  | nil => rfl
  | cons e t ih =>
    by_cases h : e.1 = i
    · simp [findById, updateById, List.find?_cons, h]
    · have hbeq : (e.1 == i) = false := by simp [h]
      simp only [findById, updateById, List.map_cons, List.find?_cons, hbeq,
        if_neg, Bool.false_eq_true, not_false_iff, ite_false] at *
      simpa [findById, updateById, hbeq] using ih

/-- The stock-decrement loop touches only the product collection. -/
theorem decStock_orders (items : List LineItem) (db : DB) :
    (decStock db items).orders = db.orders := by
  induction items generalizing db with
  | nil => rfl
  | cons it rest ih => simpa [decStock] using ih _

/-- The stock-decrement loop leaves payments untouched. -/
theorem decStock_payments (items : List LineItem) (db : DB) :
    (decStock db items).payments = db.payments := by
  induction items generalizing db with
  | nil => rfl
  | cons it rest ih => simpa [decStock] using ih _

/-- When the validation loop passes, every line item referenced an existing
active product with sufficient stock. -/
theorem validateItems_none_ok (db : DB) (items : List LineItem)
    (hv : validateItems db items = none) :
    ∀ it ∈ items, itemOkB db it = true := by
  induction items with
  | nil => intro it hit; simp at hit
  | cons a rest ih =>
    intro it hit
    unfold validateItems at hv
    rcases hp : findById db.products a.product with _ | p
    · rw [hp] at hv; simp at hv
    · rw [hp] at hv
      by_cases hA : p.isActive = true
      · simp only [hA, Bool.not_true, Bool.false_eq_true, if_false] at hv
        by_cases hs : p.stock < a.quantity
        · simp [hs] at hv
        · simp only [hs, if_false] at hv
          rcases List.mem_cons.mp hit with rfl | hr
          · simp [itemOkB, hp, hA, Int.not_lt.mp hs]
          · exact ih hv it hr
      · have hA' : p.isActive = false := by
          cases hx : p.isActive
          · rfl
          · exact absurd hx hA
        simp [hA'] at hv

/-! ## Claims -/

/-- C1: the webhook verifier accepts a request exactly when the supplied
signature equals, byte for byte, the uppercase hex MD5 digest of
merchantId ++ gatewayOrderId ++ amount ++ currency ++ statusCode ++
secretDigest, where secretDigest is the uppercase hex MD5 digest of the
shared merchant secret; on any mismatch it rejects with the authentication
error and mutates no state. -/
theorem payhereWebhook_signature_exact (db : DB) (secret : List Nat) (req : WebhookReq) :
    (req.md5sig = hexUpper (md5 (req.merchant_id ++ req.order_id ++
        req.payhere_amount ++ req.payhere_currency ++ req.status_code ++
        hexUpper (md5 secret))) →
      (payhereWebhook db secret req).2 ≠ HttpResult.badRequest "Invalid signature") ∧
    (req.md5sig ≠ hexUpper (md5 (req.merchant_id ++ req.order_id ++
        req.payhere_amount ++ req.payhere_currency ++ req.status_code ++
        hexUpper (md5 secret))) →
      payhereWebhook db secret req = (db, HttpResult.badRequest "Invalid signature")) := by
  have hed : expectedMd5sig req secret = hexUpper (md5 (req.merchant_id ++ req.order_id ++
      req.payhere_amount ++ req.payhere_currency ++ req.status_code ++
      hexUpper (md5 secret))) := rfl
  constructor
  · intro h
    have hcond : (req.md5sig != expectedMd5sig req secret) = false := by
      rw [hed]; simp [h]
    unfold payhereWebhook
    simp only [hcond, Bool.false_eq_true, if_false]
    split
    · simp
    · split
      · simp
      · split <;> simp
  · intro h
    have hcond : (req.md5sig != expectedMd5sig req secret) = true := by
      rw [hed, bne_iff_ne]
      exact h
    unfold payhereWebhook
    simp [hcond]

set_option maxRecDepth 400000 in
/-- C1 witness: the verifier passes the concrete correctly signed
notification and rejects the same notification with the signature's first
character lowercased, without touching the store. -/
theorem payhereWebhook_signature_exact_witness :
    (payhereWebhook dbPending sampleSecret (sampleWebhook statusCode2 sigSuccess)).2 ≠
      HttpResult.badRequest "Invalid signature" ∧
    payhereWebhook dbPending sampleSecret (sampleWebhook statusCode2 sigMutated) =
      (dbPending, HttpResult.badRequest "Invalid signature") :=
  ⟨(payhereWebhook_signature_exact dbPending sampleSecret
      (sampleWebhook statusCode2 sigSuccess)).1 (by decide),
   (payhereWebhook_signature_exact dbPending sampleSecret
      (sampleWebhook statusCode2 sigMutated)).2 (by decide)⟩

/-- C2: when some line item references a missing product, an inactive
product, or a quantity above the available stock, order creation returns a
validation error and the store — stock, orders, payments — is unchanged. -/
theorem createOrder_invalid_item_no_mutation (db : DB) (user : Option Nat)
    (req : CreateOrderReq)
    (h : ∃ it ∈ req.products, itemOkB db it = false) :
    ∃ msg, createOrder db user req = (db, HttpResult.badRequest msg) := by
  have hne : req.products.isEmpty = false := by
    rcases h with ⟨x, hx, _⟩
    cases hl : req.products with
    | nil => rw [hl] at hx; simp at hx
    | cons a t => rfl
  have hv : ∃ msg, validateItems db req.products = some msg := by
    rcases hval : validateItems db req.products with _ | msg
    · rcases h with ⟨x, hx, hbad⟩
      have := validateItems_none_ok db req.products hval x hx
      rw [this] at hbad; exact absurd hbad (by simp)
    · exact ⟨msg, rfl⟩
  rcases hv with ⟨msg, hv⟩
  rcases ha : req.shippingAddress with _ | addr
  · exact ⟨"Shipping address is required", by simp [createOrder, hne, ha]⟩
  · exact ⟨msg, by simp [createOrder, hne, ha, hv]⟩

/-- C2 witness: requesting quantity 99 of a product with stock 5 fails with
a validation error and leaves the store as it was. -/
theorem createOrder_invalid_item_no_mutation_witness :
    ∃ msg, createOrder dbStock5 (some 7) (sampleReq [⟨1, 99⟩] 990) =
      (dbStock5, HttpResult.badRequest msg) :=
  createOrder_invalid_item_no_mutation dbStock5 (some 7) (sampleReq [⟨1, 99⟩] 990)
    ⟨⟨1, 99⟩, by decide, by decide⟩

/-- C3: cancellation NEVER restores stock, whatever the pre-cancel status —
the handler assigns status "cancelled" before testing it against
confirmed/shipped, so the restore branch is dead code and cancelling a
confirmed order with quantity 3 leaves the product's stock unchanged rather
than adding 3 back. -/
theorem cancelOrder_never_restores_stock (db : DB) (caller : Principal) (oid : Nat) :
    (cancelOrder db caller oid).1.products = db.products := by
  unfold cancelOrder
  rcases hf : findById db.orders oid with _ | o
  · simp [hf]
  · simp only [hf]
    cases hb : (caller.role != "admin" &&
        (match o.user with | some u => u != caller.id | none => false)) with
    | true => simp [hb]
    | false =>
      cases hc : (o.status == "cancelled") with
      | true => simp [hb, hc]
      | false =>
        cases hd : (o.status == "delivered") with
        | true => simp [hb, hc, hd]
        | false =>
          simp only [hb, hc, hd, Bool.false_eq_true, if_false]
          rfl

set_option maxRecDepth 400000 in
/-- C4: for a correctly signed webhook referencing an existing order with a
non-"2" status code, a "failed" payment record IS created, but the order's
status does NOT become "payment_failed": the order schema's status enum
has no such value, the save is rejected, the handler answers 500 and the
persisted order keeps its previous status. -/
theorem payhereWebhook_failure_code_not_persisted :
    (payhereWebhook dbPending sampleSecret (sampleWebhook [49] sigFailure)).2 =
      HttpResult.serverError "Webhook processing failed" ∧
    (findById (payhereWebhook dbPending sampleSecret
        (sampleWebhook [49] sigFailure)).1.orders 5).map Order.status = some "pending" ∧
    (payhereWebhook dbPending sampleSecret (sampleWebhook [49] sigFailure)).1.payments =
      [(0, { order := 5, amount := 100, method := "card", status := "failed",
             transactionId := some [80, 49] })] := by
  decide

/-- C5: the stock-nonnegativity invariant fails: a creation request that
names the same product twice passes the per-item validation (each check
reads the not-yet-decremented stock) and drives the stock of a product with
stock 3 to -1. -/
theorem createOrder_duplicate_item_negative_stock :
    (findById (createOrder dbStock3 (some 7)
        (sampleReq [⟨1, 2⟩, ⟨1, 2⟩] 40)).1.products 1).map Product.stock = some (-1) := by
  decide

/-- C6: the spec's creation scenario (stock 5, quantity 3) persists the
pending order and decrements the stock to 2, but NO pending payment record
exists and the handler answers 500: the handler passes method "pending",
which the payment schema's method enum rejects on save. -/
theorem createOrder_scenario_payment_rejected :
    (createOrder dbStock5 (some 7) (sampleReq [⟨1, 3⟩] 30)).2 =
      HttpResult.serverError "Failed to create order" ∧
    (findById (createOrder dbStock5 (some 7) (sampleReq [⟨1, 3⟩] 30)).1.orders 0).map
      Order.status = some "pending" ∧
    (findById (createOrder dbStock5 (some 7) (sampleReq [⟨1, 3⟩] 30)).1.products 1).map
      Product.stock = some 2 ∧
    (createOrder dbStock5 (some 7) (sampleReq [⟨1, 3⟩] 30)).1.payments = [] := by
  decide

/-- C7: cancelling an order that is already "cancelled" or already
"delivered" always fails with a validation error and leaves the whole
store unchanged (stated for a caller that passes the ownership check; an
unauthorized caller is refused earlier, also without mutation). -/
theorem cancelOrder_terminal_no_mutation (db : DB) (caller : Principal) (oid : Nat)
    (o : Order) (hf : findById db.orders oid = some o)
    (hauth : caller.role = "admin" ∨ o.user = none ∨ o.user = some caller.id)
    (hterm : o.status = "cancelled" ∨ o.status = "delivered") :
    ∃ msg, cancelOrder db caller oid = (db, HttpResult.badRequest msg) := by
  have hb : (caller.role != "admin" &&
      (match o.user with | some u => u != caller.id | none => false)) = false := by
    rcases hauth with h | h | h
    · simp [h]
    · simp [h]
    · simp [h]
  rcases hterm with h | h
  · exact ⟨"Order is already cancelled", by simp [cancelOrder, hf, hb, h]⟩
  · exact ⟨"Cannot cancel delivered order", by simp [cancelOrder, hf, hb, h]⟩

/-- C7 witness: the owner's cancel attempt on a delivered order fails with
a validation error and no mutation. -/
theorem cancelOrder_terminal_no_mutation_witness :
    ∃ msg, cancelOrder dbDelivered ⟨7, "user"⟩ 5 =
      (dbDelivered, HttpResult.badRequest msg) :=
  cancelOrder_terminal_no_mutation dbDelivered ⟨7, "user"⟩ 5 (sampleOrder "delivered")
    (by decide) (Or.inr (Or.inr rfl)) (Or.inr rfl)

/-- C8 counterexample: status transitions are not monotonic — the admin
status update moves a delivered (terminal) order back to "pending" and
reports success. -/
theorem updateOrderStatus_backwards_from_delivered :
    (updateOrderStatus dbDelivered 5 ⟨"pending", none⟩).2 =
      HttpResult.ok "Order status updated successfully" ∧
    (findById (updateOrderStatus dbDelivered 5 ⟨"pending", none⟩).1.orders 5).map
      Order.status = some "pending" := by
  decide

/-- C8 amended: the admin status update imposes no transition discipline —
any status of the whitelist can be set on any found order, including
backward moves out of terminal states — while cancellation does refuse the
terminal states (it is rejected on a delivered order, with no mutation,
whether the caller fails the ownership check or reaches the status check). -/
theorem adminUpdate_any_valid_status (db : DB) (oid : Nat) (o : Order) (s : String)
    (hf : findById db.orders oid = some o)
    (hs : validStatuses.contains s = true) :
    (findById (updateOrderStatus db oid ⟨s, none⟩).1.orders oid).map Order.status = some s ∧
    ∀ caller : Principal, o.status = "delivered" →
      cancelOrder db caller oid = (db, HttpResult.forbidden "Not authorized to cancel this order") ∨
      cancelOrder db caller oid = (db, HttpResult.badRequest "Cannot cancel delivered order") := by
  have hm : s ∈ orderStatusEnum := by simpa using hs
  constructor
  · unfold updateOrderStatus
    simp only [hs, Bool.not_true, Bool.false_eq_true, if_false, hf]
    cases hsh : (s == "shipped") with
    | true => simp [hsh, trySaveOrder, orderValid, hm, findById_updateById, hf]
    | false => simp [hsh, trySaveOrder, orderValid, hm, findById_updateById, hf]
  · intro caller hdel
    cases hb : (caller.role != "admin" &&
        (match o.user with | some u => u != caller.id | none => false)) with
    | true => left; simp [cancelOrder, hf, hb]
    | false => right; simp [cancelOrder, hf, hb, hdel]

/-- C8 witness: the delivered order is moved back to "pending" by the
admin update, and a stranger's cancel attempt on it is refused without
mutation. -/
theorem adminUpdate_any_valid_status_witness :
    (findById (updateOrderStatus dbDelivered 5 ⟨"pending", none⟩).1.orders 5).map
      Order.status = some "pending" ∧
    (cancelOrder dbDelivered ⟨9, "buyer"⟩ 5 =
        (dbDelivered, HttpResult.forbidden "Not authorized to cancel this order") ∨
      cancelOrder dbDelivered ⟨9, "buyer"⟩ 5 =
        (dbDelivered, HttpResult.badRequest "Cannot cancel delivered order")) :=
  ⟨(adminUpdate_any_valid_status dbDelivered 5 (sampleOrder "delivered") "pending"
      (by decide) (by decide)).1,
   (adminUpdate_any_valid_status dbDelivered 5 (sampleOrder "delivered") "pending"
      (by decide) (by decide)).2 ⟨9, "buyer"⟩ rfl⟩

/-- C9 counterexample: "payment_failed", which the claim counts among the
accepted statuses, is rejected by the admin status update with a
validation error and no mutation. -/
theorem updateOrderStatus_rejects_payment_failed :
    updateOrderStatus dbConfirmed 5 ⟨"payment_failed", none⟩ =
      (dbConfirmed, HttpResult.badRequest "Invalid status") := by
  decide

/-- C9 amended: the admin status update answers the "Invalid status"
validation error exactly for statuses outside the six-value whitelist
(pending, confirmed, shipped, delivered, cancelled, returned — without
"payment_failed"), and when the new status is "shipped" with tracking info
supplied, the tracking info is attached to the saved order. -/
theorem updateOrderStatus_exact_six_statuses (db : DB) (oid : Nat) (s : String)
    (ti : Option TrackingInfo) :
    ((updateOrderStatus db oid ⟨s, ti⟩).2 = HttpResult.badRequest "Invalid status" ↔
      validStatuses.contains s = false) ∧
    ∀ o t, findById db.orders oid = some o → s = "shipped" → ti = some t →
      findById (updateOrderStatus db oid ⟨s, ti⟩).1.orders oid =
        some { o with status := "shipped", trackingInfo := some t } := by
  constructor
  · cases hc : validStatuses.contains s with
    | false =>
      have hnm : ¬ s ∈ validStatuses := by simpa using hc
      simp [updateOrderStatus, hc, hnm]
    | true =>
      have hm : s ∈ orderStatusEnum := by simpa using hc
      have hne : (updateOrderStatus db oid ⟨s, ti⟩).2 ≠
          HttpResult.badRequest "Invalid status" := by
        unfold updateOrderStatus
        simp only [hc, Bool.not_true, Bool.false_eq_true, if_false]
        rcases hf : findById db.orders oid with _ | o
        · simp
        · cases hsh : (s == "shipped") with
          | true =>
            cases ti with
            | none => simp [hsh, trySaveOrder, orderValid, hm]
            | some t => simp [hsh, trySaveOrder, orderValid, hm]
          | false => simp [hsh, trySaveOrder, orderValid, hm]
      constructor
      · intro h; exact absurd h hne
      · intro h; exact absurd h (by simp)
  · intro o t hf hsx hti
    subst hsx
    subst hti
    have hm : ("shipped" : String) ∈ orderStatusEnum := by decide
    have hmv : ("shipped" : String) ∈ validStatuses := by decide
    unfold updateOrderStatus
    simp [hf, trySaveOrder, orderValid, hm, hmv, findById_updateById]

/-- C9 witness: shipping the confirmed order with tracking info attaches
that tracking info and sets the status to "shipped". -/
theorem updateOrderStatus_exact_six_statuses_witness :
    findById (updateOrderStatus dbConfirmed 5
        ⟨"shipped", some sampleTracking⟩).1.orders 5 =
      some { sampleOrder "confirmed" with
               status := "shipped"
               trackingInfo := some sampleTracking } :=
  (updateOrderStatus_exact_six_statuses dbConfirmed 5 "shipped" (some sampleTracking)).2
    (sampleOrder "confirmed") sampleTracking (by decide) rfl rfl

/-- C10 counterexample: with claimed totalAmount 999 against a true price
sum of 30, the order is persisted with totalAmount 999, but no payment
record exists afterwards — the payment document (built with the same
claimed amount) is rejected by the payment schema's method enum, so the
claim's "the payment is still created" part fails. -/
theorem createOrder_claimed_amount_payment_absent :
    (findById (createOrder dbStock5 (some 7) (sampleReq [⟨1, 3⟩] 999)).1.orders 0).map
      Order.totalAmount = some 999 ∧
    (createOrder dbStock5 (some 7) (sampleReq [⟨1, 3⟩] 999)).1.payments = [] := by
  decide

/-- C10 amended: whenever creation reaches the persistence step, the
persisted order carries the request's totalAmount verbatim — no comparison
against the products' prices happens anywhere — and the payment insert
(attempted with the same verbatim amount) is rejected by the payment
schema, leaving the payment collection unchanged and the response a 500. -/
theorem createOrder_totalAmount_verbatim (db : DB) (user : Option Nat)
    (req : CreateOrderReq) (addr : String)
    (hne : req.products.isEmpty = false)
    (ha : req.shippingAddress = some addr)
    (hv : validateItems db req.products = none)
    (hg : (user.isNone && (req.customerName.isNone || req.customerEmail.isNone ||
        req.customerPhone.isNone)) = false) :
    (createOrder db user req).1.orders = db.orders ++
      [(freshId db.orders,
        { user := user, products := req.products, totalAmount := req.totalAmount,
          status := "pending", shippingAddress := addr, trackingInfo := none })] ∧
    (createOrder db user req).1.payments = db.payments ∧
    (createOrder db user req).2 = HttpResult.serverError "Failed to create order" := by
  unfold createOrder
  simp only [hne, Bool.false_eq_true, if_false, ha, hv, hg]
  refine ⟨?_, ?_, ?_⟩ <;>
    simp [tryInsertOrder, orderValid, orderStatusEnum, tryInsertPayment, paymentValid,
      paymentMethodEnum, paymentStatusEnum, decStock_orders, decStock_payments]

/-- C10 witness: the concrete request with claimed total 999 persists the
order with 999, leaves payments unchanged and answers 500. -/
theorem createOrder_totalAmount_verbatim_witness :
    (createOrder dbStock5 (some 7) (sampleReq [⟨1, 3⟩] 999)).1.orders =
      dbStock5.orders ++
        [(freshId dbStock5.orders,
          { user := some 7, products := [⟨1, 3⟩], totalAmount := 999,
            status := "pending", shippingAddress := "Jaffna", trackingInfo := none })] ∧
    (createOrder dbStock5 (some 7) (sampleReq [⟨1, 3⟩] 999)).1.payments =
      dbStock5.payments ∧
    (createOrder dbStock5 (some 7) (sampleReq [⟨1, 3⟩] 999)).2 =
      HttpResult.serverError "Failed to create order" :=
  createOrder_totalAmount_verbatim dbStock5 (some 7) (sampleReq [⟨1, 3⟩] 999) "Jaffna"
    (by decide) rfl (by decide) (by decide)
